import Mathlib

/-!
Verification development for the single-file Streamlit chat front-end
(`streamlit_app.py`).  The Python source is shallowly embedded: fallible
Python code becomes `Except`/`Option`-valued Lean functions, the external
world (Streamlit secrets, process environment, the boto3 client, the remote
agent API) becomes explicit parameters, and Python `bytes` become `List Nat`
(byte values 0..255).
-/

/-- An opaque handle to the remote agent-invocation API, as produced by
`boto3.client('bedrock-agent-runtime', ...)`.  The handle itself is never
inspected by the Python code, only passed along, so it is modelled as a
tagged value. -/
structure Client where
  id : Nat
deriving DecidableEq, Repr

/-- One event of the streamed response `resp['completion']`: either a record
with a `chunk` key carrying raw bytes (`event['chunk']['bytes']`), or some
other event shape (no `chunk` key), abstracted by a tag. -/
inductive Event where
  | chunk (bytes : List Nat)
  | other (tag : String)
deriving DecidableEq, Repr

/-- Models the Python membership test `'chunk' in event`. -/
def Event.hasChunk : Event → Bool
  | .chunk _ => true
  | .other _ => false

/-- The response envelope returned by `client.invoke_agent(...)`: the code
reads only its `completion` field, an iterable of events. -/
structure Response where
  completion : List Event
deriving DecidableEq, Repr

/-- Is `b` a UTF-8 continuation byte (0x80..0xBF)?  Used by the embedding of
Python `bytes.decode('utf8')`. -/
def isUtf8Cont (b : Nat) : Bool := 0x80 ≤ b && b ≤ 0xBF

/-- Strict UTF-8 decoding of a byte sequence to a list of code points,
as performed by Python `bytes.decode('utf8')`: rejects truncated sequences,
stray continuation bytes, overlong encodings, surrogate code points and
code points above 0x10FFFF; `none` models a raised `UnicodeDecodeError`. -/
def utf8DecodeCps : List Nat → Option (List Nat)
  | [] => some []
  | b :: rest =>
    if b < 0x80 then
      (utf8DecodeCps rest).map (fun cs => b :: cs)
    else if b < 0xC2 then
      none
    else if b ≤ 0xDF then
      match rest with
      | b1 :: rest2 =>
        if isUtf8Cont b1 then
          (utf8DecodeCps rest2).map (fun cs => ((b - 0xC0) * 0x40 + (b1 - 0x80)) :: cs)
        else none
      | [] => none
    else if b ≤ 0xEF then
      match rest with
      | b1 :: b2 :: rest2 =>
        let lo1 := if b == 0xE0 then 0xA0 else 0x80
        let hi1 := if b == 0xED then 0x9F else 0xBF
        if lo1 ≤ b1 && b1 ≤ hi1 && isUtf8Cont b2 then
          (utf8DecodeCps rest2).map
            (fun cs => ((b - 0xE0) * 0x1000 + (b1 - 0x80) * 0x40 + (b2 - 0x80)) :: cs)
        else none
      | _ => none
    else if b ≤ 0xF4 then
      match rest with
      | b1 :: b2 :: b3 :: rest2 =>
        let lo1 := if b == 0xF0 then 0x90 else 0x80
        let hi1 := if b == 0xF4 then 0x8F else 0xBF
        if lo1 ≤ b1 && b1 ≤ hi1 && isUtf8Cont b2 && isUtf8Cont b3 then
          (utf8DecodeCps rest2).map
            (fun cs =>
              ((b - 0xF0) * 0x40000 + (b1 - 0x80) * 0x1000
                + (b2 - 0x80) * 0x40 + (b3 - 0x80)) :: cs)
        else none
      | _ => none
    else none

/-- Python `bytes.decode('utf8')`: strict UTF-8 decoding to a text value;
`none` models a raised `UnicodeDecodeError`.  Every code point produced by
`utf8DecodeCps` is a valid scalar value, so `Char.ofNat` is exact here. -/
def utf8Decode (bs : List Nat) : Option String :=
  (utf8DecodeCps bs).map (fun cs => String.mk (cs.map Char.ofNat))

/-- The exceptions that `process_response` can raise, as plain Python
`Exception` values: `unexpectedEvent evt` is `Exception("unexpected event.",
event)` from the loop body, `decodeError` is the `UnicodeDecodeError` from
`data.decode('utf8')`, and `wrapped e` is the re-raise
`Exception("unexpected event.", e)` from the surrounding handler. -/
inductive BedrockExc where
  | unexpectedEvent (evt : Event)
  | decodeError
  | wrapped (e : BedrockExc)
deriving DecidableEq, Repr

/-- Rendering of an event used when an exception is turned into display
text; the Python `str` of the underlying dict is abstracted to a tag. -/
def eventText : Event → String
  | .chunk _ => "chunk event"
  | .other tag => tag

/-- Python `str(e)` for the exceptions of `process_response`. -/
def bedrockExcText : BedrockExc → String
  | .unexpectedEvent evt => "('unexpected event.', " ++ eventText evt ++ ")"
  | .decodeError => "invalid utf-8"
  | .wrapped e => "('unexpected event.', " ++ bedrockExcText e ++ ")"

/-- The body of the `for event in event_stream` loop of `process_response`
(lines 82-88): on the first event with a `chunk` key, decode its bytes and
return them; on an event with no `chunk` key, raise
`Exception("unexpected event.", event)`.  Both branches leave the loop, so
at most the first event is consumed; an empty stream falls through and the
function returns `None`. -/
def processLoop : List Event → Except BedrockExc (Option String)
  | [] => .ok none
  | evt :: _ =>
    match evt with
    | .chunk bytes =>
      match utf8Decode bytes with
      | some s => .ok (some s)
      | none => .error .decodeError
    | .other _ => .error (.unexpectedEvent evt)

/-- `process_response` (lines 78-90): runs the loop over `resp['completion']`
and re-raises any exception `e` from it as
`Exception("unexpected event.", e)`. -/
def process_response (resp : Response) : Except BedrockExc (Option String) :=
  match processLoop resp.completion with
  | .ok v => .ok v
  | .error e => .error (.wrapped e)

/-- The exceptions that the `invoke_agent` call can raise into
`generate_response`: `clientError code message` is a botocore `ClientError`
with `e.response['Error']['Code'] = code` and
`e.response['Error']['Message'] = message`; `noCredentials` is
`NoCredentialsError`; `otherExc text` is any other exception with
`str(e) = text`. -/
inductive InvokeExc where
  | clientError (code : String) (message : String)
  | noCredentials
  | otherExc (text : String)
deriving DecidableEq, Repr

/-- Python truthiness of the value returned by `process_response`:
`None` and the empty string are falsy. -/
def pyTruthy : Option String → Bool
  | none => false
  | some s => s ≠ ""

/-- `generate_response` (lines 92-120), with the outcome of the single
`client.invoke_agent(...)` remote call injected as `invokeRes`.  On a normal
response the result of `process_response` is returned if truthy, else
`"No response received"`; every exception is converted to a message string
(the function never raises):  `ClientError` is dispatched on its error code,
`NoCredentialsError` gets the credentials message, and any other exception
(including the ones `process_response` raises) reaches the catch-all. -/
def generate_response (invokeRes : Except InvokeExc Response) : String :=
  match invokeRes with
  | .ok resp =>
    match process_response resp with
    | .ok response_text =>
      if pyTruthy response_text then response_text.getD "" else "No response received"
    | .error e => "❌ Unexpected error: " ++ bedrockExcText e
  | .error (.clientError code message) =>
    if code = "AccessDeniedException" then
      "❌ Access denied. Check your AWS permissions for Bedrock."
    else if code = "ResourceNotFoundException" then
      "❌ Agent not found. Check your Agent ID and Alias ID."
    else
      "❌ AWS Error: " ++ message
  | .error .noCredentials =>
    "❌ AWS credentials not found. Please configure credentials."
  | .error (.otherExc text) =>
    "❌ Unexpected error: " ++ text

/-- The external world seen by the configuration code: whether the `st`
object has a `secrets` attribute, the secret store and the process
environment as partial maps, and the outcomes of the three external calls
`boto3.client(...)` (with secret-store credentials, with environment
credentials, and with ambient default credentials) together with the
outcome of the probe `client.list_agents(maxResults=n)`.  Errors carry the
Python exception text. -/
structure World where
  hasSecrets : Bool
  secrets : String → Option String
  env : String → Option String
  secretsClient : Except String Client
  envClient : Except String Client
  defaultClient : Except String Client
  listAgents : Nat → Except String Unit

/-- Method 1 of `initialize_aws_client` (lines 18-32): if `st` has a
`secrets` attribute and `'AWS_ACCESS_KEY_ID' in st.secrets`, build a client
from the secret store; the lookup `st.secrets['AWS_SECRET_ACCESS_KEY']`
raises `KeyError` when absent, and the `boto3.client` call may also raise —
either exception is swallowed (`st.warning`) and yields no client here.
When the guard is false the `try` body just falls through. -/
def methodSecrets (w : World) : Option Client :=
  if w.hasSecrets && (w.secrets "AWS_ACCESS_KEY_ID").isSome then
    match w.secrets "AWS_SECRET_ACCESS_KEY" with
    | none => none
    | some _ =>
      match w.secretsClient with
      | .ok c => some c
      | .error _ => none
  else none

/-- Method 2 of `initialize_aws_client` (lines 34-48): if the environment
variable `AWS_ACCESS_KEY_ID` is set, build a client from environment
credentials (`os.getenv` never raises; the `boto3.client` call may), with
any exception swallowed. -/
def methodEnv (w : World) : Option Client :=
  if (w.env "AWS_ACCESS_KEY_ID").isSome then
    match w.envClient with
    | .ok c => some c
    | .error _ => none
  else none

/-- Method 3 of `initialize_aws_client` (lines 50-60): build a client from
ambient default credentials and validate it with the probe call
`client.list_agents(maxResults=1)`; any exception is reported (`st.error`)
and yields `None`. -/
def methodDefault (w : World) : Option Client :=
  match w.defaultClient with
  | .error _ => none
  | .ok c =>
    match w.listAgents 1 with
    | .ok _ => some c
    | .error _ => none

/-- `initialize_aws_client` (lines 16-60): tries the three methods in order,
returning the first client obtained; if method 1 produced no client
(guard false or exception swallowed) control reaches method 2, then
method 3; if all fail the function returns `None`. -/
def initialize_aws_client (w : World) : Option Client :=
  match methodSecrets w with
  | some c => some c
  | none =>
    match methodEnv w with
    | some c => some c
    | none => methodDefault w

/-- `get_agent_config` (lines 62-76): reads `AGENT_ID` and `AGENT_ALIAS_ID`
from `st.secrets` inside a bare `try`; if either lookup raises (attribute
missing or key absent), the `except` block assigns both identifiers from
`os.getenv` instead (possibly `None`).  Since the `except` block reassigns
both variables, the returned pair always comes entirely from one source. -/
def get_agent_config (w : World) : Option String × Option String :=
  if w.hasSecrets && (w.secrets "AGENT_ID").isSome
      && (w.secrets "AGENT_ALIAS_ID").isSome then
    (w.secrets "AGENT_ID", w.secrets "AGENT_ALIAS_ID")
  else
    (w.env "AGENT_ID", w.env "AGENT_ALIAS_ID")

/-- One entry of `st.session_state.messages`:
`{"role": ..., "content": ...}`. -/
structure Msg where
  role : String
  content : String
deriving DecidableEq, Repr

/-- The session-scoped mutable state (lines 122-133): `session_id`,
`messages`, `client_initialized` and `client`. -/
structure SessionState where
  session_id : String
  messages : List Msg
  client_initialized : Bool
  client : Option Client
deriving DecidableEq, Repr

/-- The "Clear Chat" handler (lines 182-184): assigns
`st.session_state.messages = []` and nothing else. -/
def clearChat (s : SessionState) : SessionState :=
  { s with messages := [] }

/-- The "New Session" handler (lines 147-150): assigns a fresh
`session_id = str(uuid.uuid4())` (the fresh id is an input here) and
`messages = []`, and nothing else. -/
def newSession (freshId : String) (s : SessionState) : SessionState :=
  { s with session_id := freshId, messages := [] }

/-- The chat-input handler (lines 243-258): append the user message, call
`generate_response` (whose remote-call outcome is injected), append the
assistant message.  Only `messages` is touched. -/
def chatStep (s : SessionState) (prompt : String)
    (invokeRes : Except InvokeExc Response) : SessionState :=
  let s1 := { s with messages := s.messages ++ [Msg.mk "user" prompt] }
  let response := generate_response invokeRes
  { s1 with messages := s1.messages ++ [Msg.mk "assistant" response] }

/-- A run of the chat loop: one `chatStep` per submitted prompt, each with
the outcome of that turn's remote call. -/
def chatRun : List (String × Except InvokeExc Response) → SessionState → SessionState
  | [], s => s
  | (prompt, res) :: turns, s => chatRun turns (chatStep s prompt res)

/-- The alternation shape required of a chat history: a sequence of
user/assistant pairs, starting with a user message. -/
def userAssistantPairs : List Msg → Bool
  | [] => true
  | u :: a :: rest => u.role == "user" && a.role == "assistant" && userAssistantPairs rest
  | _ :: [] => false

/-- The JSON values that the export code builds: strings, arrays and objects
(field order preserved, as in a Python dict). -/
inductive JVal where
  | str (s : String)
  | arr (xs : List JVal)
  | obj (fields : List (String × JVal))

/-- Lowercase hex digit, as used in Python json `\uXXXX` escapes. -/
def hexDigit (n : Nat) : Char :=
  if n < 10 then Char.ofNat (48 + n) else Char.ofNat (87 + n)

/-- Four lowercase hex digits of a 16-bit value. -/
def u16Hex (n : Nat) : String :=
  String.mk [hexDigit (n / 4096 % 16), hexDigit (n / 256 % 16),
    hexDigit (n / 16 % 16), hexDigit (n % 16)]

/-- Escaping of one character inside a JSON string literal, as done by
Python `json.dumps` with its default `ensure_ascii=True`: quote and
backslash get two-character escapes, control characters get short escapes or
`\uXXXX`, printable ASCII stays literal, and every non-ASCII character is
escaped (with a surrogate pair beyond the basic plane). -/
def jsonEscapeChar (c : Char) : String :=
  let n := c.toNat
  if c = Char.ofNat 34 then "\\\""
  else if c = Char.ofNat 92 then "\\\\"
  else if n = 8 then "\\b"
  else if n = 9 then "\\t"
  else if n = 10 then "\\n"
  else if n = 12 then "\\f"
  else if n = 13 then "\\r"
  else if n < 0x20 then "\\u" ++ u16Hex n
  else if n < 0x7F then String.mk [c]
  else if n ≤ 0xFFFF then "\\u" ++ u16Hex n
  else
    let m := n - 0x10000
    "\\u" ++ u16Hex (0xD800 + m / 0x400) ++ "\\u" ++ u16Hex (0xDC00 + m % 0x400)

/-- A JSON string literal for `s`, Python-style. -/
def jsonQuote (s : String) : String :=
  "\"" ++ String.join (s.data.map jsonEscapeChar) ++ "\""

/-- `n` spaces. -/
def spaces (n : Nat) : String := String.mk (List.replicate n ' ')

mutual

/-- Python `json.dumps(v, indent=2)` at nesting level `lvl`: empty
containers print without newlines; non-empty containers put each item on
its own line indented by `2 * (lvl + 1)` spaces, keys separated from values
by a colon and a space. -/
def dumpVal (lvl : Nat) : JVal → String
  | .str s => jsonQuote s
  | .arr [] => "[]"
  | .arr (x :: xs) =>
    "[\n" ++ spaces (2 * (lvl + 1)) ++ dumpVal (lvl + 1) x
      ++ dumpArrTail (lvl + 1) xs ++ "\n" ++ spaces (2 * lvl) ++ "]"
  | .obj [] => "\x7b\x7d"
  | .obj (f :: fs) =>
    "\x7b\n" ++ spaces (2 * (lvl + 1)) ++ dumpField (lvl + 1) f
      ++ dumpObjTail (lvl + 1) fs ++ "\n" ++ spaces (2 * lvl) ++ "\x7d"

/-- Remaining array items, each preceded by a comma, newline and indent. -/
def dumpArrTail (lvl : Nat) : List JVal → String
  | [] => ""
  | x :: xs => ",\n" ++ spaces (2 * lvl) ++ dumpVal lvl x ++ dumpArrTail lvl xs

/-- One `"key": value` field. -/
def dumpField (lvl : Nat) : String × JVal → String
  | (k, v) => jsonQuote k ++ ": " ++ dumpVal lvl v

/-- Remaining object fields, each preceded by a comma, newline and indent. -/
def dumpObjTail (lvl : Nat) : List (String × JVal) → String
  | [] => ""
  | f :: fs => ",\n" ++ spaces (2 * lvl) ++ dumpField lvl f ++ dumpObjTail lvl fs

end

/-- Python `json.dumps(v, indent=2)`. -/
def jsonDumps2 (v : JVal) : String := dumpVal 0 v

/-- One message as the JSON object `json.dumps` sees it. -/
def msgJson (m : Msg) : JVal :=
  .obj [("role", .str m.role), ("content", .str m.content)]

/-- The `chat_export` dict (lines 270-274): session id, the ISO-8601
timestamp produced by `datetime.now().isoformat()` (the clock's output is
an input here), and the message history. -/
def chat_export (sid nowIso : String) (msgs : List Msg) : JVal :=
  .obj [("session_id", .str sid), ("timestamp", .str nowIso),
    ("messages", .arr (msgs.map msgJson))]

/-- The `st.download_button` arguments (lines 276-281): the payload is
`json.dumps(chat_export, indent=2)` and the file name is
`f"chat_{session_id[:8]}.json"` (Python's `[:8]` takes at most the first 8
characters, like `String.take`). -/
def downloadButtonArgs (sid nowIso : String) (msgs : List Msg) : String × String :=
  (jsonDumps2 (chat_export sid nowIso msgs), "chat_" ++ sid.take 8 ++ ".json")

/-- A world in which all three credential sources fail: no secrets
attribute, empty environment, and a default client whose probe call is
denied. -/
def noCredsWorld : World where
  hasSecrets := false
  secrets := fun _ => none
  env := fun _ => none
  secretsClient := .error "no secrets"
  envClient := .error "no env"
  defaultClient := .ok ⟨0⟩
  listAgents := fun _ => .error "AccessDenied"

/-- A world whose secret store holds both agent identifiers. -/
def agentSecretsWorld : World where
  hasSecrets := true
  secrets := fun k =>
    if k = "AGENT_ID" then some "AGENTID99"
    else if k = "AGENT_ALIAS_ID" then some "ALIAS7" else none
  env := fun _ => some "FROMENV"
  secretsClient := .error "unused"
  envClient := .error "unused"
  defaultClient := .error "unused"
  listAgents := fun _ => .error "unused"

/-- Field lookup in a JSON object, for stating what the export contains. -/
def JVal.lookup (v : JVal) (key : String) : Option JVal :=
  match v with
  | .obj fields => (fields.find? (fun f => f.1 == key)).map (fun f => f.2)
  | _ => none

/-- The keys of a JSON object, in order. -/
def JVal.keys : JVal → List String
  | .obj fields => fields.map (fun f => f.1)
  | _ => []

example :
    jsonDumps2 (chat_export "abcd-efgh-123" "2026-10-12T10:00:00"
        [Msg.mk "user" "Hola ❌ \"q\"\n", Msg.mk "assistant" ""])
      = "\x7b\n  \"session_id\": \"abcd-efgh-123\",\n  \"timestamp\": \"2026-10-12T10:00:00\",\n  \"messages\": [\n    \x7b\n      \"role\": \"user\",\n      \"content\": \"Hola \\u274c \\\"q\\\"\\n\"\n    \x7d,\n    \x7b\n      \"role\": \"assistant\",\n      \"content\": \"\"\n    \x7d\n  ]\n\x7d" := rfl

example : utf8Decode [0xE2, 0x9D, 0x8C] = some "❌" := rfl

example : utf8Decode [0xF0, 0x9F, 0x98, 0x80] = some "😀" := rfl

example : utf8Decode [0x80] = none := rfl

example : utf8Decode [0xC0, 0xAF] = none := rfl

example : utf8Decode [0xED, 0xA0, 0x80] = none := rfl

example : process_response ⟨[.chunk [0x48, 0x69]]⟩ = .ok (some "Hi") := rfl

example : generate_response (.ok ⟨[.chunk [0x48, 0x69], .other "trace"]⟩) = "Hi" := by decide

example : generate_response (.ok ⟨[]⟩) = "No response received" := by decide

example : generate_response (.ok ⟨[.chunk []]⟩) = "No response received" := by decide

example :
    process_response ⟨[.other "trace"]⟩
      = .error (.wrapped (.unexpectedEvent (.other "trace"))) := rfl

/-! ## Helper lemmas -/

/-- One chat step appends exactly the user message and the assistant
message produced by `generate_response`. -/
theorem chatStep_messages (s : SessionState) (prompt : String)
    (res : Except InvokeExc Response) :
    (chatStep s prompt res).messages
      = s.messages ++ [Msg.mk "user" prompt,
          Msg.mk "assistant" (generate_response res)] := by
  simp [chatStep]

/-- Appending to a history made of user/assistant pairs checks the
appended part alone. -/
theorem userAssistantPairs_append (ms ms2 : List Msg)
    (h : userAssistantPairs ms = true) :
    userAssistantPairs (ms ++ ms2) = userAssistantPairs ms2 := by
  induction ms using userAssistantPairs.induct with
  | case1 => simp
  | case2 u a rest ih =>
    simp only [userAssistantPairs, Bool.and_eq_true] at h
    simp only [List.cons_append, userAssistantPairs, h.1.1, h.1.2,
      Bool.true_and]
    exact ih h.2
  | case3 x => simp [userAssistantPairs] at h

/-- Running the chat loop preserves the pair shape of the history and adds
two messages per turn. -/
theorem chatRun_invariant (turns : List (String × Except InvokeExc Response)) :
    ∀ s : SessionState, userAssistantPairs s.messages = true →
      (chatRun turns s).messages.length = s.messages.length + 2 * turns.length
        ∧ userAssistantPairs (chatRun turns s).messages = true := by
  induction turns with
  | nil => intro s h; simpa [chatRun] using h
  | cons t ts ih =>
    intro s h
    obtain ⟨p, r⟩ := t
    have hpairs : userAssistantPairs (chatStep s p r).messages = true := by
      rw [chatStep_messages, userAssistantPairs_append _ _ h]
      simp [userAssistantPairs]
    have hlen : (chatStep s p r).messages.length = s.messages.length + 2 := by
      rw [chatStep_messages]; simp
    obtain ⟨ihlen, ihpairs⟩ := ih (chatStep s p r) hpairs
    refine ⟨?_, ?_⟩
    · show (chatRun ts (chatStep s p r)).messages.length = _
      rw [ihlen, hlen]; simp [List.length_cons]; ring
    · exact ihpairs

/-- The chat loop only ever appends to the history. -/
theorem chatRun_appends (turns : List (String × Except InvokeExc Response)) :
    ∀ s : SessionState, ∃ tail, (chatRun turns s).messages = s.messages ++ tail := by
  induction turns with
  | nil => intro s; exact ⟨[], by simp [chatRun]⟩
  | cons t ts ih =>
    intro s
    obtain ⟨p, r⟩ := t
    obtain ⟨tail, htail⟩ := ih (chatStep s p r)
    refine ⟨[Msg.mk "user" p, Msg.mk "assistant" (generate_response r)] ++ tail, ?_⟩
    show (chatRun ts (chatStep s p r)).messages = _
    rw [htail, chatStep_messages]; simp

/-! ## Claims -/

/-- C1: for every response stream whose first event is a chunk event (with
UTF-8-decodable bytes), `process_response` returns the UTF-8 decoding of
that chunk and its result does not depend on the later events of the
stream, which are never consumed. -/
theorem process_response_first_chunk (bytes : List Nat) (s : String)
    (rest : List Event) (hdec : utf8Decode bytes = some s) :
    process_response ⟨Event.chunk bytes :: rest⟩ = .ok (some s)
      ∧ process_response ⟨Event.chunk bytes :: rest⟩
          = process_response ⟨[Event.chunk bytes]⟩ := by
  refine ⟨?_, ?_⟩ <;> simp [process_response, processLoop, hdec]

theorem process_response_first_chunk_witness :
    utf8Decode [0x48, 0x69] = some "Hi"
      ∧ (process_response ⟨[Event.chunk [0x48, 0x69], Event.other "trace"]⟩
            = .ok (some "Hi")
          ∧ process_response ⟨[Event.chunk [0x48, 0x69], Event.other "trace"]⟩
            = process_response ⟨[Event.chunk [0x48, 0x69]]⟩) :=
  ⟨rfl, process_response_first_chunk [0x48, 0x69] "Hi" [Event.other "trace"] rfl⟩

/-- C2: `generate_response` returns a message string for every injected
failure of the remote call: the permission-denied message for a
`ClientError` with code `AccessDeniedException`, the agent-not-found
message for `ResourceNotFoundException`, a generic AWS message embedding
the service error text for any other `ClientError`, the
credentials message for `NoCredentialsError`, and the unexpected-error
message embedding the exception text for any other exception.  Being a
total function into `String`, it never raises. -/
theorem generate_response_failure_messages (code message t : String)
    (h1 : code ≠ "AccessDeniedException")
    (h2 : code ≠ "ResourceNotFoundException") :
    generate_response (.error (.clientError "AccessDeniedException" message))
        = "❌ Access denied. Check your AWS permissions for Bedrock."
      ∧ generate_response (.error (.clientError "ResourceNotFoundException" message))
        = "❌ Agent not found. Check your Agent ID and Alias ID."
      ∧ generate_response (.error (.clientError code message))
        = "❌ AWS Error: " ++ message
      ∧ generate_response (.error .noCredentials)
        = "❌ AWS credentials not found. Please configure credentials."
      ∧ generate_response (.error (.otherExc t))
        = "❌ Unexpected error: " ++ t := by
  refine ⟨rfl, rfl, ?_, rfl, rfl⟩
  simp [generate_response, h1, h2]

theorem generate_response_failure_messages_witness :
    generate_response (.error (.clientError "ThrottlingException" "slow down"))
        = "❌ AWS Error: " ++ "slow down"
      ∧ generate_response (.error (.otherExc "boom"))
        = "❌ Unexpected error: " ++ "boom" :=
  ⟨(generate_response_failure_messages "ThrottlingException" "slow down" "boom"
      (by decide) (by decide)).2.2.1,
   (generate_response_failure_messages "ThrottlingException" "slow down" "boom"
      (by decide) (by decide)).2.2.2.2⟩

/-- C3: `initialize_aws_client` tries the secret store, then the process
environment, then ambient default credentials (validated by the
`list_agents(maxResults=1)` probe, see `methodDefault`), in that order:
a client obtained from an earlier source is returned at once and later
sources are not consulted; a failed attempt is swallowed and resolution
moves to the next source; when all three fail the result is `none`. -/
theorem initialize_aws_client_resolution (w : World) :
    (∀ c, methodSecrets w = some c → initialize_aws_client w = some c)
      ∧ (methodSecrets w = none →
          ∀ c, methodEnv w = some c → initialize_aws_client w = some c)
      ∧ (methodSecrets w = none → methodEnv w = none →
          initialize_aws_client w = methodDefault w)
      ∧ (methodSecrets w = none → methodEnv w = none → methodDefault w = none →
          initialize_aws_client w = none) := by
  refine ⟨?_, ?_, ?_, ?_⟩
  · intro c h; simp [initialize_aws_client, h]
  · intro h1 c h2; simp [initialize_aws_client, h1, h2]
  · intro h1 h2; simp [initialize_aws_client, h1, h2]
  · intro h1 h2 h3; simp [initialize_aws_client, h1, h2, h3]

theorem initialize_aws_client_resolution_witness :
    initialize_aws_client noCredsWorld = none :=
  (initialize_aws_client_resolution noCredsWorld).2.2.2 rfl rfl rfl

/-- C4: for every response stream whose first event has no `chunk` key,
`process_response` fails with the unexpected-event error carrying the
offending event (wrapped once more by the re-raising handler). -/
theorem process_response_unexpected_first_event (evt : Event)
    (rest : List Event) (h : evt.hasChunk = false) :
    process_response ⟨evt :: rest⟩
      = .error (.wrapped (.unexpectedEvent evt)) := by
  cases evt with
  | chunk bytes => simp [Event.hasChunk] at h
  | other tag => simp [process_response, processLoop]

theorem process_response_unexpected_first_event_witness :
    process_response ⟨[Event.other "returnControl", Event.chunk [0x48]]⟩
      = .error (.wrapped (.unexpectedEvent (Event.other "returnControl"))) :=
  process_response_unexpected_first_event (Event.other "returnControl")
    [Event.chunk [0x48]] rfl

/-- C5: for an empty response stream `process_response` returns the falsy
`None` rather than failing, and `generate_response` then returns the string
"No response received". -/
theorem empty_stream_no_response :
    process_response ⟨[]⟩ = .ok none
      ∧ generate_response (.ok ⟨[]⟩) = "No response received" :=
  ⟨rfl, rfl⟩

/-- C6: `get_agent_config` is all-or-nothing per source: the returned pair
always comes entirely from the secret store or entirely from the process
environment; the secret store is used exactly when the `secrets` attribute
exists and holds both `AGENT_ID` and `AGENT_ALIAS_ID`, and otherwise both
identifiers are taken from the environment. -/
theorem get_agent_config_all_or_nothing (w : World) :
    (get_agent_config w = (w.secrets "AGENT_ID", w.secrets "AGENT_ALIAS_ID")
        ∨ get_agent_config w = (w.env "AGENT_ID", w.env "AGENT_ALIAS_ID"))
      ∧ (w.hasSecrets = true → (w.secrets "AGENT_ID").isSome = true →
          (w.secrets "AGENT_ALIAS_ID").isSome = true →
          get_agent_config w = (w.secrets "AGENT_ID", w.secrets "AGENT_ALIAS_ID"))
      ∧ (w.hasSecrets = false ∨ w.secrets "AGENT_ID" = none
            ∨ w.secrets "AGENT_ALIAS_ID" = none →
          get_agent_config w = (w.env "AGENT_ID", w.env "AGENT_ALIAS_ID")) := by
  refine ⟨?_, ?_, ?_⟩
  · by_cases hc : w.hasSecrets && (w.secrets "AGENT_ID").isSome
        && (w.secrets "AGENT_ALIAS_ID").isSome
    · left; simp [get_agent_config, hc]
    · right; simp [get_agent_config, hc]
  · intro h1 h2 h3; simp [get_agent_config, h1, h2, h3]
  · intro h
    rcases h with h | h | h <;> simp [get_agent_config, h]

theorem get_agent_config_all_or_nothing_witness :
    get_agent_config agentSecretsWorld = (some "AGENTID99", some "ALIAS7") :=
  (get_agent_config_all_or_nothing agentSecretsWorld).2.1 rfl rfl rfl

/-- C7: starting from an empty history, N chat turns leave exactly 2N
messages alternating user/assistant starting with user; moreover, for any
starting state the chat loop only appends to `messages`, never edits or
splices it. -/
theorem chat_history_invariant
    (turns : List (String × Except InvokeExc Response)) (s : SessionState) :
    ((chatRun turns { s with messages := [] }).messages.length = 2 * turns.length
      ∧ userAssistantPairs (chatRun turns { s with messages := [] }).messages = true)
      ∧ ∃ tail, (chatRun turns s).messages = s.messages ++ tail := by
  refine ⟨?_, chatRun_appends turns s⟩
  have h := chatRun_invariant turns { s with messages := [] } (by simp [userAssistantPairs])
  simpa using h

/-- C8: the export serializes, with the Python json renderer at indent 2,
exactly the record whose fields are the session id, the ISO-8601 timestamp
from the clock, and the message history (in that order, with no other
field), and the download file name is `chat_` followed by the first 8
characters of the session id and `.json`. -/
theorem chat_export_contents (sid nowIso : String) (msgs : List Msg) :
    downloadButtonArgs sid nowIso msgs
        = (jsonDumps2 (chat_export sid nowIso msgs),
            "chat_" ++ sid.take 8 ++ ".json")
      ∧ (chat_export sid nowIso msgs).keys = ["session_id", "timestamp", "messages"]
      ∧ (chat_export sid nowIso msgs).lookup "session_id" = some (.str sid)
      ∧ (chat_export sid nowIso msgs).lookup "timestamp" = some (.str nowIso)
      ∧ (chat_export sid nowIso msgs).lookup "messages"
          = some (.arr (msgs.map msgJson)) := by
  refine ⟨rfl, rfl, ?_, ?_, ?_⟩ <;> simp [chat_export, JVal.lookup]

/-- C9: when the first event of the stream is a chunk whose bytes decode to
the empty string, `process_response` returns the empty text but
`generate_response` returns "No response received": the truthiness check
does not distinguish an empty decoded chunk from an absent response. -/
theorem empty_chunk_reported_as_no_response (bytes : List Nat)
    (rest : List Event) (h : utf8Decode bytes = some "") :
    process_response ⟨Event.chunk bytes :: rest⟩ = .ok (some "")
      ∧ generate_response (.ok ⟨Event.chunk bytes :: rest⟩)
          = "No response received" := by
  have hpr : process_response ⟨Event.chunk bytes :: rest⟩ = .ok (some "") := by
    simp [process_response, processLoop, h]
  refine ⟨hpr, ?_⟩
  simp [generate_response, hpr, pyTruthy]

theorem empty_chunk_reported_as_no_response_witness :
    process_response ⟨[Event.chunk []]⟩ = .ok (some "")
      ∧ generate_response (.ok ⟨[Event.chunk []]⟩) = "No response received" :=
  empty_chunk_reported_as_no_response [] [] rfl

/-- C10: "Clear Chat" replaces `messages` by the empty list and leaves
`session_id`, `client` and `client_initialized` unchanged, while
"New Session" resets `session_id` (to the fresh id) and `messages`
together, leaving the client fields unchanged. -/
theorem clear_chat_and_new_session_frame (s : SessionState) (freshId : String) :
    clearChat s = { s with messages := [] }
      ∧ (clearChat s).session_id = s.session_id
      ∧ (clearChat s).client = s.client
      ∧ (clearChat s).client_initialized = s.client_initialized
      ∧ newSession freshId s = { s with session_id := freshId, messages := [] }
      ∧ (newSession freshId s).session_id = freshId
      ∧ (newSession freshId s).messages = []
      ∧ (newSession freshId s).client = s.client
      ∧ (newSession freshId s).client_initialized = s.client_initialized :=
  ⟨rfl, rfl, rfl, rfl, rfl, rfl, rfl, rfl, rfl⟩
